import Mathlib

/-!
Shallow embedding of the Aadhaar verification pipeline
(`app/services/aadhaar.py`).  External engines (pdf2image, PIL, pyzbar,
pyaadhaar, pytesseract) are modelled as an environment supplying their
results; every piece of decision logic in `verify_aadhaar` is translated
directly.  Regular-expression searches are modelled by hand-rolled
scanners that reproduce Python `re` semantics (leftmost match, alternation
order, greedy quantifiers with backtracking, word boundaries) for the
concrete patterns appearing in the source.  Character classes are modelled
over ASCII.
-/

namespace Aadhaar

/-- Python `\s` character class (ASCII part). -/
def isSpaceCh (c : Char) : Bool :=
  c == ' ' || c == '\t' || c == '\n' || c == '\r' || c.toNat == 11 || c.toNat == 12

/-- Python `\w` character class (ASCII part): letters, digits, underscore. -/
def isWordCh (c : Char) : Bool :=
  c.isAlpha || c.isDigit || c == '_'

/-- A `\b` word boundary holds before a word character iff the previous
character (if any) is not a word character. -/
def isBoundaryBefore : Option Char → Bool
  | none => true
  | some c => !isWordCh c

/-- A `\b` word boundary holds after a word character iff the next
character (if any) is not a word character. -/
def boundaryAfterWord : List Char → Bool
  | [] => true
  | c :: _ => !isWordCh c

/-- Consume exactly `n` decimal digits, returning them and the rest. -/
def takeDigitsN : Nat → List Char → Option (List Char × List Char)
  | 0, cs => some ([], cs)
  | _ + 1, [] => none
  | n + 1, c :: cs =>
    if c.isDigit then
      match takeDigitsN n cs with
      | some (ds, r) => some (c :: ds, r)
      | none => none
    else none

/-- Consume one `\s` character. -/
def takeOneSpace : List Char → Option (Char × List Char)
  | c :: cs => if isSpaceCh c then some (c, cs) else none
  | [] => none

/-- Consume one slash-or-dash separator character. -/
def takeSep : List Char → Option (Char × List Char)
  | c :: cs => if c == '/' || c == '-' then some (c, cs) else none
  | [] => none

/-- Attempt of the pattern `\b\d{4}\s\d{4}\s\d{4}\b`
(line 127 of `aadhaar.py`) at the current position. -/
def tryAadhaarAt (prev : Option Char) (cs : List Char) : Option (List Char) :=
  if isBoundaryBefore prev then
    match takeDigitsN 4 cs with
    | none => none
    | some (d1, r1) =>
      match takeOneSpace r1 with
      | none => none
      | some (s1, r2) =>
        match takeDigitsN 4 r2 with
        | none => none
        | some (d2, r3) =>
          match takeOneSpace r3 with
          | none => none
          | some (s2, r4) =>
            match takeDigitsN 4 r4 with
            | none => none
            | some (d3, r5) =>
              if boundaryAfterWord r5 then some (d1 ++ s1 :: d2 ++ s2 :: d3)
              else none
  else none

/-- Leftmost-match scan for the id-number pattern. -/
def aadhaarScan : Option Char → List Char → Option (List Char)
  | _, [] => none
  | prev, c :: rest =>
    match tryAadhaarAt prev (c :: rest) with
    | some m => some m
    | none => aadhaarScan (some c) rest

/-- `re.search(r'\b\d{4}\s\d{4}\s\d{4}\b', text)` returning the matched text. -/
def searchAadhaar (cs : List Char) : Option (List Char) :=
  aadhaarScan none cs

/-- First alternative of the date pattern: two digits, a slash-or-dash
separator, two digits, a slash-or-dash separator, four digits. -/
def dobBranch1 (cs : List Char) : Option (List Char × List Char) :=
  match takeDigitsN 2 cs with
  | none => none
  | some (d1, r1) =>
    match takeSep r1 with
    | none => none
    | some (s1, r2) =>
      match takeDigitsN 2 r2 with
      | none => none
      | some (d2, r3) =>
        match takeSep r3 with
        | none => none
        | some (s2, r4) =>
          match takeDigitsN 4 r4 with
          | none => none
          | some (d3, r5) => some (d1 ++ s1 :: d2 ++ s2 :: d3, r5)

/-- Second alternative of the date pattern: `\d{2}\s\d{2}\s\d{4}`. -/
def dobBranch2 (cs : List Char) : Option (List Char × List Char) :=
  match takeDigitsN 2 cs with
  | none => none
  | some (d1, r1) =>
    match takeOneSpace r1 with
    | none => none
    | some (s1, r2) =>
      match takeDigitsN 2 r2 with
      | none => none
      | some (d2, r3) =>
        match takeOneSpace r3 with
        | none => none
        | some (s2, r4) =>
          match takeDigitsN 4 r4 with
          | none => none
          | some (d3, r5) => some (d1 ++ s1 :: d2 ++ s2 :: d3, r5)

/-- Third alternative of the date pattern: `\d{4}-\d{2}-\d{2}`. -/
def dobBranch3 (cs : List Char) : Option (List Char × List Char) :=
  match takeDigitsN 4 cs with
  | none => none
  | some (d1, r1) =>
    match r1 with
    | '-' :: r2 =>
      match takeDigitsN 2 r2 with
      | none => none
      | some (d2, r3) =>
        match r3 with
        | '-' :: r4 =>
          match takeDigitsN 2 r4 with
          | none => none
          | some (d3, r5) => some (d1 ++ '-' :: d2 ++ '-' :: d3, r5)
        | _ => none
    | _ => none

/-- Second and third alternatives of the date pattern (line 131 of
`aadhaar.py`), each checked with the trailing boundary, in engine
order. -/
def tryDobTail (cs : List Char) : Option (List Char) :=
  match dobBranch2 cs with
  | some (m, r) =>
    if boundaryAfterWord r then some m
    else
      match dobBranch3 cs with
      | some (m3, r3) => if boundaryAfterWord r3 then some m3 else none
      | none => none
  | none =>
    match dobBranch3 cs with
    | some (m3, r3) => if boundaryAfterWord r3 then some m3 else none
    | none => none

/-- Full attempt of the date pattern at one position: the first
alternative, then the remaining two, each with the trailing boundary. -/
def tryDobAt (prev : Option Char) (cs : List Char) : Option (List Char) :=
  if isBoundaryBefore prev then
    match dobBranch1 cs with
    | some (m, r) => if boundaryAfterWord r then some m else tryDobTail cs
    | none => tryDobTail cs
  else none

/-- Leftmost-match scan for the date pattern. -/
def dobScan : Option Char → List Char → Option (List Char)
  | _, [] => none
  | prev, c :: rest =>
    match tryDobAt prev (c :: rest) with
    | some m => some m
    | none => dobScan (some c) rest

/-- `re.search` for the date pattern, returning the matched text. -/
def searchDob (cs : List Char) : Option (List Char) :=
  dobScan none cs

/-- Case-insensitive literal match: strip `lit` from the front of `cs`
comparing characters case-insensitively. -/
def ciStrip : List Char → List Char → Option (List Char)
  | [], cs => some cs
  | _ :: _, [] => none
  | p :: ps, c :: cs => if p.toLower == c.toLower then ciStrip ps cs else none

/-- Drop characters up to and including the first newline; fails when the
list has no newline.  Models the deterministic effect of a greedy `.*`
(which cannot cross a newline) followed by a literal `\n`. -/
def dropToAfterNewline : List Char → Option (List Char)
  | [] => none
  | c :: cs => if c == '\n' then some cs else dropToAfterNewline cs

/-- The capture group `[A-Za-z]{2,}\s+[A-Za-z]{2,}(?:\s+[A-Za-z]{2,})?`
followed by `\b`, matched at the current position with the greedy
backtracking Python `re` performs: the optional third word is taken when
possible, and dropped again when the trailing boundary fails after it. -/
def matchG (cs : List Char) : Option (List Char) :=
  let p1 := cs.span Char.isAlpha
  if p1.1.length < 2 then none
  else
    let p2 := p1.2.span isSpaceCh
    if p2.1.length == 0 then none
    else
      let p3 := p2.2.span Char.isAlpha
      if p3.1.length < 2 then none
      else
        let p4 := p3.2.span isSpaceCh
        let p5 := p4.2.span Char.isAlpha
        if p4.1.length != 0 && decide (2 ≤ p5.1.length) && boundaryAfterWord p5.2 then
          some (p1.1 ++ p2.1 ++ p3.1 ++ p4.1 ++ p5.1)
        else if boundaryAfterWord p3.2 then
          some (p1.1 ++ p2.1 ++ p3.1)
        else none

/-- On the line that starts `cs` (scanning stops at a newline), return the
name-group match whose start is rightmost, as the greedy `.*` preceding
`\b(...)` does; the group itself may run past the end of the line because
`\s+` inside it matches newlines. -/
def lastLineG : Char → List Char → Option (List Char)
  | _, [] => none
  | prev, c :: rest =>
    if c == '\n' then none
    else
      match lastLineG c rest with
      | some g => some g
      | none => if isWordCh prev then none else matchG (c :: rest)

/-- Continuation of the first name alternative after the marker literal:
the rest of the marker's line, a newline, then the rightmost name group
on the following line. -/
def tryAlt1Rest (r : List Char) : Option (List Char) :=
  match dropToAfterNewline r with
  | none => none
  | some afterNl => lastLineG '\n' afterNl

/-- First alternative of the name pattern (line 135 of `aadhaar.py`):
a `DOB` or `Male` literal (case-insensitive, no boundary), then the shared
continuation. -/
def tryAlt1 (cs : List Char) : Option (List Char) :=
  match ciStrip "DOB".toList cs with
  | some r => tryAlt1Rest r
  | none =>
    match ciStrip "Male".toList cs with
    | some r => tryAlt1Rest r
    | none => none

/-- Second alternative of the name pattern: a `\b` boundary followed by the
name group anywhere. -/
def tryAlt2 (prev : Option Char) (cs : List Char) : Option (List Char) :=
  if isBoundaryBefore prev then matchG cs else none

/-- Leftmost-match scan for the name pattern: at each position the
label-anchored alternative is tried before the positional one. -/
def nameScan : Option Char → List Char → Option (List Char)
  | _, [] => none
  | prev, c :: rest =>
    match tryAlt1 (c :: rest) with
    | some g => some g
    | none =>
      match tryAlt2 prev (c :: rest) with
      | some g => some g
      | none => nameScan (some c) rest

/-- `re.search` for the name pattern of line 135, returning the matched
capture group. -/
def searchName (cs : List Char) : Option (List Char) :=
  nameScan none cs

/-- Python `str.strip()` on a character list. -/
def pyStrip (cs : List Char) : List Char :=
  ((cs.dropWhile isSpaceCh).reverse.dropWhile isSpaceCh).reverse

/-- Whether a mark-anchored (first-alternative) match exists at any
position of the text. -/
def alt1Anywhere : List Char → Bool
  | [] => false
  | c :: rest => (tryAlt1 (c :: rest)).isSome || alt1Anywhere rest

/-- Scan using only the positional (second) alternative — what the name
search would be if it consisted of the fallback branch alone. -/
def posOnlyScan : Option Char → List Char → Option (List Char)
  | _, [] => none
  | prev, c :: rest =>
    match tryAlt2 prev (c :: rest) with
    | some g => some g
    | none => posOnlyScan (some c) rest

/-- A calendar date produced by `datetime.strptime`. -/
structure PDate where
  day : Nat
  month : Nat
  year : Nat
deriving Repr, DecidableEq

/-- Numeric value of a decimal digit character. -/
def digitVal (c : Char) : Nat := c.toNat - 48

/-- Candidate parses of the `%d` directive, in the order the CPython
`_strptime` regex alternation tries them: a two-digit day 01–31 first,
then a single digit 1–9. -/
def dayCands : List Char → List (Nat × List Char)
  | a :: b :: r =>
    (if a.isDigit && b.isDigit && decide (1 ≤ 10 * digitVal a + digitVal b)
        && decide (10 * digitVal a + digitVal b ≤ 31)
     then [(10 * digitVal a + digitVal b, r)] else []) ++
    (if a.isDigit && decide (1 ≤ digitVal a) && decide (digitVal a ≤ 9)
     then [(digitVal a, b :: r)] else [])
  | [a] =>
    if a.isDigit && decide (1 ≤ digitVal a) && decide (digitVal a ≤ 9)
    then [(digitVal a, [])] else []
  | [] => []

/-- Candidate parses of the `%m` directive: a two-digit month 01–12 first,
then a single digit 1–9. -/
def monthCands : List Char → List (Nat × List Char)
  | a :: b :: r =>
    (if a.isDigit && b.isDigit && decide (1 ≤ 10 * digitVal a + digitVal b)
        && decide (10 * digitVal a + digitVal b ≤ 12)
     then [(10 * digitVal a + digitVal b, r)] else []) ++
    (if a.isDigit && decide (1 ≤ digitVal a) && decide (digitVal a ≤ 9)
     then [(digitVal a, b :: r)] else [])
  | [a] =>
    if a.isDigit && decide (1 ≤ digitVal a) && decide (digitVal a ≤ 9)
    then [(digitVal a, [])] else []
  | [] => []

/-- The `%Y` directive: exactly four digits. -/
def year4 : List Char → Option (Nat × List Char)
  | a :: b :: c :: d :: r =>
    if a.isDigit && b.isDigit && c.isDigit && d.isDigit then
      some (1000 * digitVal a + 100 * digitVal b + 10 * digitVal c + digitVal d, r)
    else none
  | _ => none

/-- A literal separator character in a strptime format. -/
def litSep (sep : Char) : List Char → Option (List Char)
  | c :: cs => if c == sep then some cs else none
  | [] => none

/-- A literal whitespace in a strptime format: `_strptime` compiles it to
`\s+`, so it greedily consumes a nonempty run of whitespace. -/
def wsSep : List Char → Option (List Char)
  | c :: cs => if isSpaceCh c then some (cs.dropWhile isSpaceCh) else none
  | [] => none

/-- Textual phase of `strptime` for a day-month-year format with the given
separator matcher: the regex must consume the whole string. -/
def dmyTextual (sep : List Char → Option (List Char)) (cs : List Char) :
    Option (Nat × Nat × Nat) :=
  (dayCands cs).findSome? fun dc =>
    match sep dc.2 with
    | none => none
    | some r2 =>
      (monthCands r2).findSome? fun mc =>
        match sep mc.2 with
        | none => none
        | some r4 =>
          match year4 r4 with
          | some (y, []) => some (dc.1, mc.1, y)
          | _ => none

/-- Textual phase of `strptime` for the `%Y-%m-%d` format. -/
def ymdTextual (cs : List Char) : Option (Nat × Nat × Nat) :=
  match year4 cs with
  | none => none
  | some (y, r1) =>
    match litSep '-' r1 with
    | none => none
    | some r2 =>
      (monthCands r2).findSome? fun mc =>
        match litSep '-' mc.2 with
        | none => none
        | some r4 =>
          (dayCands r4).findSome? fun dc =>
            if dc.2 = [] then some (y, mc.1, dc.1) else none

/-- Gregorian leap-year rule, as `datetime` uses. -/
def isLeap (y : Nat) : Bool :=
  (y % 4 == 0 && y % 100 != 0) || y % 400 == 0

/-- Length of a month, as `datetime` validates day-of-month against. -/
def daysInMonth (m y : Nat) : Nat :=
  if m == 2 then (if isLeap y then 29 else 28)
  else if m == 4 || m == 6 || m == 9 || m == 11 then 30
  else 31

/-- Validity of a parsed date: the `datetime(year, month, day)`
construction succeeds exactly under these bounds. -/
def validPDate (d m y : Nat) : Bool :=
  decide (1 ≤ y) && decide (y ≤ 9999) && decide (1 ≤ m) && decide (m ≤ 12)
    && decide (1 ≤ d) && decide (d ≤ daysInMonth m y)

/-- `datetime.strptime(s, "%d-%m-%Y")`: textual match first, then the
calendar validity check the `datetime` constructor performs. -/
def strptimeDashDMY (s : String) : Option PDate :=
  match dmyTextual (litSep '-') s.toList with
  | some (d, m, y) => if validPDate d m y then some ⟨d, m, y⟩ else none
  | none => none

/-- `datetime.strptime(s, "%d/%m/%Y")`. -/
def strptimeSlashDMY (s : String) : Option PDate :=
  match dmyTextual (litSep '/') s.toList with
  | some (d, m, y) => if validPDate d m y then some ⟨d, m, y⟩ else none
  | none => none

/-- `datetime.strptime(s, "%d %m %Y")`. -/
def strptimeSpaceDMY (s : String) : Option PDate :=
  match dmyTextual wsSep s.toList with
  | some (d, m, y) => if validPDate d m y then some ⟨d, m, y⟩ else none
  | none => none

/-- `datetime.strptime(s, "%Y-%m-%d")`. -/
def strptimeDashYMD (s : String) : Option PDate :=
  match ymdTextual s.toList with
  | some (y, m, d) => if validPDate d m y then some ⟨d, m, y⟩ else none
  | none => none

/-- Days since 1970-01-01 of a proleptic-Gregorian civil date — the
quantity `timedelta.days` of `date2 - date1` differences is built from. -/
def daysFromCivil (y m d : Nat) : Int :=
  let y1 : Nat := if m ≤ 2 then y - 1 else y
  let era : Nat := y1 / 400
  let yoe : Nat := y1 % 400
  let mp : Nat := (m + 9) % 12
  let doy : Nat := (153 * mp + 2) / 5 + d - 1
  let doe : Nat := yoe * 365 + yoe / 4 - yoe / 100 + doy
  (era * 146097 + doe : Int) - 719468

/-- Day number of a parsed date. -/
def pdateDays (d : PDate) : Int := daysFromCivil d.year d.month d.day

/-- `(datetime.now() - dob_date).days // 365`, with `now` and the date of
birth given as day numbers; `//` is Python floor division. -/
def ageYears (now dob : Int) : Int := Int.fdiv (now - dob) 365

/-- `age >= 18`, the computed eligibility flag. -/
def isAdult (now dob : Int) : Bool := decide (18 ≤ ageYears now dob)

/-- The result record `aadhaar_data` assembled by `verify_aadhaar`. -/
structure AadhaarData where
  aadhaar_number : Option String
  dob : Option String
  name : Option String
  is_18_or_older : Bool
  valid : Bool
  error : Option String
deriving Repr, DecidableEq

/-- Initial value of `aadhaar_data` (lines 63–70). -/
def initAadhaarData : AadhaarData :=
  { aadhaar_number := none, dob := none, name := none,
    is_18_or_older := false, valid := false, error := none }

/-- The dictionary the secure-QR decoder yields, restricted to the keys
`verify_aadhaar` reads via `.get`. -/
structure QrPayload where
  aadhaar_number : Option String
  dob : Option String
  name : Option String
deriving Repr, DecidableEq

/-- Results of the external engines for one invocation.  `pdfPagesQr` is
the per-page outcome of `extract_qr_code` after `convert_from_bytes` (the
rasterizer may throw); `imageQr` is the single-image outcome after
`Image.open` (which may throw; `extract_qr_code` swallows its own
exceptions); `decodeQr` is `AadhaarSecureQr(...).decoded_dict()`, with
`none` covering both a decoding exception and a falsy result; `ocrText` is
the outcome of the external work in `extract_text_from_file`; `nowDays` is
the day number of `datetime.now()`. -/
structure Env where
  pdfPagesQr : Except String (List (Option String))
  imageQr : Except String (Option String)
  decodeQr : String → Option QrPayload
  ocrText : Except String String
  nowDays : Int

/-- Python truthiness of an optional string: `None` and `""` are falsy. -/
def truthy : Option String → Bool
  | none => false
  | some s => s != ""

/-- `re.match(r'^\d{12}$', s)`: twelve decimal digits; the `$` anchor also
accepts a single trailing newline. -/
def isAadhaar12 (s : String) : Bool :=
  let cs := s.toList
  (cs.length == 12 && cs.all Char.isDigit) ||
  (cs.length == 13 && (cs.take 12).all Char.isDigit && cs.getLast? == some '\n')

/-- Masking of line 119/164: `"XXXX XXXX " + s[-4:]`. -/
def maskNumber (s : String) : String :=
  "XXXX XXXX " ++ s.drop (s.length - 4)

/-- Lines 102–104 / 138–140: store the candidate id number and set
`valid` when it is truthy and matches the twelve-digit pattern. -/
def applyNumber (num : Option String) (a : AadhaarData) : AadhaarData :=
  match num with
  | some s =>
    if s ≠ "" ∧ isAadhaar12 s = true then
      { a with aadhaar_number := some s, valid := true }
    else a
  | none => a

/-- Lines 106–114 / 142–155: when a truthy date string is present, try the
given parse; on success store the raw string and the age flag, on a
`ValueError` reset both. -/
def applyDobWith (parse : String → Option PDate) (now : Int)
    (dob : Option String) (a : AadhaarData) : AadhaarData :=
  match dob with
  | some s =>
    if s ≠ "" then
      match parse s with
      | some d =>
        { a with dob := some s, is_18_or_older := isAdult now (pdateDays d) }
      | none => { a with dob := none, is_18_or_older := false }
    else a
  | none => a

/-- Lines 116 / 157: unconditional assignment of the name field. -/
def applyName (name : Option String) (a : AadhaarData) : AadhaarData :=
  { a with name := name }

/-- Line 119 / 164: replace the stored id number by its masked form (the
guard at the call sites ensures it is present). -/
def maskTop (a : AadhaarData) : AadhaarData :=
  { a with aadhaar_number := Option.map maskNumber a.aadhaar_number }

/-- Lines 159–160: set the fixed error message when no valid id was
found. -/
def applyErrorFlag (a : AadhaarData) : AadhaarData :=
  if a.valid = true then a
  else { a with error := some "Could not extract valid Aadhaar details" }

/-- Lines 162–164: mask the id number when one is (truthily) present. -/
def applyMaskGuarded (a : AadhaarData) : AadhaarData :=
  if truthy a.aadhaar_number = true then maskTop a else a

/-- Lines 98–116: populate the record from the decoded QR payload. -/
def structuredFields (p : QrPayload) (now : Int) (a : AadhaarData) : AadhaarData :=
  applyName p.name (applyDobWith strptimeDashDMY now p.dob (applyNumber p.aadhaar_number a))

/-- Line 118: the short-circuit condition `valid and dob and name`. -/
def shortCircuitCheck (a : AadhaarData) : Bool :=
  a.valid && truthy a.dob && truthy a.name

/-- Lines 88–120: the structured-code tier.  Returns the record together
with `true` when the short-circuit return of line 120 fires. -/
def structuredStage (q : Option String) (env : Env) : AadhaarData × Bool :=
  match q with
  | none => (initAadhaarData, false)
  | some s =>
    if s ≠ "" then
      match env.decodeQr s with
      | none => (initAadhaarData, false)
      | some p =>
        let a := structuredFields p env.nowDays initAadhaarData
        if shortCircuitCheck a = true then (maskTop a, true) else (a, false)
    else (initAadhaarData, false)

/-- Python `s.startswith(pre)` on the underlying character lists. -/
def pyStartsWith (s pre : String) : Bool :=
  pre.toList.isPrefixOf s.toList

/-- The page loop of lines 77–81: first truthy QR result wins; with no
truthy result the loop leaves the last page's value (falsy either way). -/
def firstQr : List (Option String) → Option String
  | [] => none
  | [r] => r
  | r :: rest => if truthy r = true then r else firstQr rest

/-- Lines 76–86: obtain `qr_code_string`, or the `ValueError` for an
unsupported content type. -/
def qrScanStage (ct : String) (env : Env) : Except String (Option String) :=
  if ct = "application/pdf" then
    match env.pdfPagesQr with
    | Except.ok pages => Except.ok (firstQr pages)
    | Except.error e => Except.error e
  else if pyStartsWith ct "image/" = true then env.imageQr
  else Except.error "Unsupported file type"

/-- `extract_text_from_file` (lines 22–38): the external OCR work, guarded
by the same content-type check, which raises for anything else. -/
def extract_text_from_file (ct : String) (env : Env) : Except String String :=
  if ct = "application/pdf" then env.ocrText
  else if pyStartsWith ct "image/" = true then env.ocrText
  else Except.error "Unsupported file type"

/-- Lines 144–149: the separator-selected strptime attempt. -/
def parseDobBySeparator (s : String) : Option PDate :=
  if s.toList.contains '/' then strptimeSlashDMY s
  else if s.toList.contains '-' then
    if (s.toList.takeWhile fun c => c ≠ '-').length = 2 then strptimeDashDMY s
    else strptimeDashYMD s
  else strptimeSpaceDMY s

/-- Lines 123–166: the OCR fallback tier, operating on whatever record the
structured tier left behind. -/
def fallbackTier (text : String) (now : Int) (a : AadhaarData) : AadhaarData :=
  let aadhaar_number : Option String :=
    (searchAadhaar text.toList).map fun m => String.mk (m.filter fun c => c ≠ ' ')
  let dob : Option String := (searchDob text.toList).map String.mk
  let name : Option String := (searchName text.toList).map fun m => String.mk (pyStrip m)
  applyMaskGuarded (applyErrorFlag (applyName name
    (applyDobWith parseDobBySeparator now dob (applyNumber aadhaar_number a))))

/-- `verify_aadhaar` (lines 59–171): try the structured-code tier, fall
back to OCR, and absorb any exception at the outer boundary into the
record assembled so far. -/
def verify_aadhaar (ct : String) (env : Env) : AadhaarData :=
  match qrScanStage ct env with
  | Except.error e => { initAadhaarData with error := some e, valid := false }
  | Except.ok q =>
    match structuredStage q env with
    | (a1, true) => a1
    | (a1, false) =>
      match extract_text_from_file ct env with
      | Except.error e => { a1 with error := some e, valid := false }
      | Except.ok text => fallbackTier text env.nowDays a1

/-- Environment of a run on a document whose rasterizer throws. -/
def envPdfBoom : Env :=
  { pdfPagesQr := Except.error "rasterizer failure", imageQr := Except.ok none,
    decodeQr := fun _ => none, ocrText := Except.ok "", nowDays := 0 }

/-- Environment of a run whose structured code decodes to a complete
payload. -/
def envFullQr : Env :=
  { pdfPagesQr := Except.ok [], imageQr := Except.ok (some "Q"),
    decodeQr := fun _ =>
      some { aadhaar_number := some "123456789012", dob := some "15-06-2000",
             name := some "Jane Doe" },
    ocrText := Except.ok "", nowDays := daysFromCivil 2025 1 1 }

/-- Environment of a run whose structured code decodes to a payload with a
valid id and a name but no date of birth, while OCR recognizes only a
date. -/
def envPartialQr : Env :=
  { pdfPagesQr := Except.ok [], imageQr := Except.ok (some "Q"),
    decodeQr := fun _ =>
      some { aadhaar_number := some "123456789012", dob := none,
             name := some "Jane Doe" },
    ocrText := Except.ok "01-02-1999", nowDays := daysFromCivil 2020 1 1 }

/-- Environment of a run whose structured code decodes to a payload with a
valid id and a name but no date of birth, and whose OCR engine throws. -/
def envOcrThrows : Env :=
  { pdfPagesQr := Except.ok [], imageQr := Except.ok (some "Q"),
    decodeQr := fun _ =>
      some { aadhaar_number := some "123456789012", dob := none,
             name := some "Jane Doe" },
    ocrText := Except.error "OCR engine failure", nowDays := 0 }

/-- Environment of a run with no structured code and plain recognized
text. -/
def envNoQr : Env :=
  { pdfPagesQr := Except.ok [], imageQr := Except.ok none,
    decodeQr := fun _ => none,
    ocrText := Except.ok "abc def", nowDays := 0 }

/-! Field-preservation lemmas for the record-update steps. -/

theorem applyNumber_dob (num : Option String) (a : AadhaarData) :
    (applyNumber num a).dob = a.dob := by
  cases num with
  | none => rfl
  | some s => simp only [applyNumber]; split <;> rfl

theorem applyNumber_is18 (num : Option String) (a : AadhaarData) :
    (applyNumber num a).is_18_or_older = a.is_18_or_older := by
  cases num with
  | none => rfl
  | some s => simp only [applyNumber]; split <;> rfl

theorem applyNumber_error (num : Option String) (a : AadhaarData) :
    (applyNumber num a).error = a.error := by
  cases num with
  | none => rfl
  | some s => simp only [applyNumber]; split <;> rfl

theorem applyDobWith_error (parse : String → Option PDate) (now : Int)
    (dob : Option String) (a : AadhaarData) :
    (applyDobWith parse now dob a).error = a.error := by
  cases dob with
  | none => rfl
  | some s =>
    simp only [applyDobWith]
    split
    · split <;> rfl
    · rfl

theorem applyName_dob (name : Option String) (a : AadhaarData) :
    (applyName name a).dob = a.dob := rfl

theorem applyName_is18 (name : Option String) (a : AadhaarData) :
    (applyName name a).is_18_or_older = a.is_18_or_older := rfl

theorem applyName_error (name : Option String) (a : AadhaarData) :
    (applyName name a).error = a.error := rfl

theorem maskTop_dob (a : AadhaarData) : (maskTop a).dob = a.dob := rfl

theorem maskTop_is18 (a : AadhaarData) : (maskTop a).is_18_or_older = a.is_18_or_older := rfl

theorem maskTop_valid (a : AadhaarData) : (maskTop a).valid = a.valid := rfl

theorem maskTop_error (a : AadhaarData) : (maskTop a).error = a.error := rfl

theorem applyErrorFlag_dob (a : AadhaarData) : (applyErrorFlag a).dob = a.dob := by
  simp only [applyErrorFlag]; split <;> rfl

theorem applyErrorFlag_is18 (a : AadhaarData) :
    (applyErrorFlag a).is_18_or_older = a.is_18_or_older := by
  simp only [applyErrorFlag]; split <;> rfl

theorem applyErrorFlag_valid (a : AadhaarData) : (applyErrorFlag a).valid = a.valid := by
  simp only [applyErrorFlag]; split <;> rfl

theorem applyMaskGuarded_dob (a : AadhaarData) : (applyMaskGuarded a).dob = a.dob := by
  simp only [applyMaskGuarded]; split <;> rfl

theorem applyMaskGuarded_is18 (a : AadhaarData) :
    (applyMaskGuarded a).is_18_or_older = a.is_18_or_older := by
  simp only [applyMaskGuarded]; split <;> rfl

theorem applyMaskGuarded_valid (a : AadhaarData) : (applyMaskGuarded a).valid = a.valid := by
  simp only [applyMaskGuarded]; split <;> rfl

theorem applyMaskGuarded_error (a : AadhaarData) : (applyMaskGuarded a).error = a.error := by
  simp only [applyMaskGuarded]; split <;> rfl

/-- The structured tier never writes the error field. -/
theorem structuredFields_error (p : QrPayload) (now : Int) (a : AadhaarData) :
    (structuredFields p now a).error = a.error := by
  simp only [structuredFields, applyName_error, applyDobWith_error, applyNumber_error]

/-- The record the structured stage hands on always has an empty error
field. -/
theorem structuredStage_error (q : Option String) (env : Env) :
    (structuredStage q env).1.error = none := by
  cases q with
  | none => rfl
  | some s =>
    simp only [structuredStage]
    split
    · split
      · rfl
      · split
        · show (maskTop _).error = none
          rw [maskTop_error, structuredFields_error]
          rfl
        · show (structuredFields _ _ _).error = none
          rw [structuredFields_error]
          rfl
    · rfl

/-- When the short-circuit of line 118 fires, the returned record is
valid. -/
theorem structuredStage_true_valid (q : Option String) (env : Env) (a1 : AadhaarData)
    (h : structuredStage q env = (a1, true)) : a1.valid = true := by
  cases q with
  | none => exact absurd (show false = true from congrArg Prod.snd h) (by decide)
  | some s =>
    simp only [structuredStage] at h
    split at h
    · split at h
      · exact absurd (show false = true from congrArg Prod.snd h) (by decide)
      · split at h
        · rename_i hs x p hp hsc
          have ha : a1 = maskTop (structuredFields p env.nowDays initAadhaarData) :=
            (congrArg Prod.fst h).symm
          rw [ha, maskTop_valid]
          simp only [shortCircuitCheck, Bool.and_eq_true] at hsc
          exact hsc.1.1
        · exact absurd (show false = true from congrArg Prod.snd h) (by decide)
    · exact absurd (show false = true from congrArg Prod.snd h) (by decide)

/-- When the fallback tier starts from a record with no error, the final
error field is empty exactly when the final record is valid. -/
theorem fallbackTier_error_iff_valid (text : String) (now : Int) (a : AadhaarData)
    (h : a.error = none) :
    ((fallbackTier text now a).error = none ↔ (fallbackTier text now a).valid = true) := by
  simp only [fallbackTier]
  rw [applyMaskGuarded_error, applyMaskGuarded_valid, applyErrorFlag_valid]
  unfold applyErrorFlag
  split
  · rename_i hv
    rw [applyName_error, applyDobWith_error, applyNumber_error, h, hv]
    simp
  · rename_i hv
    show some "Could not extract valid Aadhaar details" = none ↔ _ = true
    simp only [Bool.not_eq_true] at hv
    rw [hv]
    simp

/-- C10: on every path out of `verify_aadhaar` the returned record's error
field is non-null exactly when its valid field is false. -/
theorem c10_error_iff_invalid (ct : String) (env : Env) :
    ((verify_aadhaar ct env).error = none ↔ (verify_aadhaar ct env).valid = true) := by
  cases hq : qrScanStage ct env with
  | error e =>
    unfold verify_aadhaar
    simp [hq, initAadhaarData]
  | ok q =>
    cases hss : structuredStage q env with
    | mk a1 sc =>
      cases sc with
      | true =>
        have h1 : a1.error = none := by
          have := structuredStage_error q env
          rw [hss] at this
          exact this
        have h2 : a1.valid = true := structuredStage_true_valid q env a1 hss
        unfold verify_aadhaar
        simp only [hq, hss]
        simp [h1, h2]
      | false =>
        have h1 : a1.error = none := by
          have := structuredStage_error q env
          rw [hss] at this
          exact this
        cases ht : extract_text_from_file ct env with
        | error e =>
          unfold verify_aadhaar
          simp only [hq, hss, ht]
          simp
        | ok t =>
          unfold verify_aadhaar
          simp only [hq, hss, ht]
          exact fallbackTier_error_iff_valid t env.nowDays a1 h1

/-- C6: any exception raised by an external stage is absorbed at the
outermost boundary of `verify_aadhaar`: its message is placed verbatim in
the error field, the valid flag is forced false, and the record assembled
so far is returned; the function itself is total. -/
theorem c6_exception_boundary (ct : String) (env : Env) (e : String) :
    (qrScanStage ct env = Except.error e →
      verify_aadhaar ct env = { initAadhaarData with error := some e, valid := false }) ∧
    (∀ q a1, qrScanStage ct env = Except.ok q → structuredStage q env = (a1, false) →
      extract_text_from_file ct env = Except.error e →
      verify_aadhaar ct env = { a1 with error := some e, valid := false }) := by
  constructor
  · intro h
    unfold verify_aadhaar
    simp only [h]
  · intro q a1 h1 h2 h3
    unfold verify_aadhaar
    simp only [h1, h2, h3]

/-- Witness for C6 at concrete inputs: a rasterizer failure and an OCR
failure are both absorbed into the returned record. -/
theorem c6_exception_boundary_witness :
    verify_aadhaar "application/pdf" envPdfBoom =
      { initAadhaarData with error := some "rasterizer failure", valid := false } ∧
    verify_aadhaar "image/png" envOcrThrows =
      { aadhaar_number := some "123456789012", dob := none, name := some "Jane Doe",
        is_18_or_older := false, valid := false, error := some "OCR engine failure" } :=
  ⟨(c6_exception_boundary "application/pdf" envPdfBoom "rasterizer failure").1 rfl,
   (c6_exception_boundary "image/png" envOcrThrows "OCR engine failure").2
     (some "Q")
     { aadhaar_number := some "123456789012", dob := none, name := some "Jane Doe",
       is_18_or_older := false, valid := true, error := none }
     rfl (by decide) rfl⟩

/-- C9: when no structured code is found (or it is empty, or its payload
fails to decode), the output of `verify_aadhaar` is exactly what the field
extractor and result normalizer alone produce on the recognized text. -/
theorem c9_tier_independence (ct : String) (env : Env) (q : Option String) (t : String)
    (hq : qrScanStage ct env = Except.ok q)
    (hnoqr : q = none ∨ ∃ s, q = some s ∧ (s = "" ∨ env.decodeQr s = none))
    (ht : extract_text_from_file ct env = Except.ok t) :
    verify_aadhaar ct env = fallbackTier t env.nowDays initAadhaarData := by
  have hss : structuredStage q env = (initAadhaarData, false) := by
    rcases hnoqr with rfl | ⟨s, rfl, hs⟩
    · rfl
    · rcases hs with rfl | hdec
      · rfl
      · simp only [structuredStage]
        split
        · simp only [hdec]
        · rfl
  unfold verify_aadhaar
  simp only [hq, hss, ht]

/-- Witness for C9 at a concrete input with no structured code. -/
theorem c9_tier_independence_witness :
    verify_aadhaar "image/jpeg" envNoQr = fallbackTier "abc def" 0 initAadhaarData :=
  c9_tier_independence "image/jpeg" envNoQr none "abc def" rfl (Or.inl rfl) rfl

/-- C1 (amended): when the structured tier does not short-circuit, the
fallback tier runs on the record the structured tier already populated —
not on a fresh one — so fields of the two tiers can end up merged. -/
theorem c1_amended_fallthrough_keeps_fields (ct : String) (env : Env) (q : Option String)
    (a1 : AadhaarData) (t : String)
    (hq : qrScanStage ct env = Except.ok q)
    (hss : structuredStage q env = (a1, false))
    (ht : extract_text_from_file ct env = Except.ok t) :
    verify_aadhaar ct env = fallbackTier t env.nowDays a1 := by
  unfold verify_aadhaar
  simp only [hq, hss, ht]

/-- Witness for the amended C1 at a concrete input whose structured code
is incomplete. -/
theorem c1_amended_fallthrough_keeps_fields_witness :
    verify_aadhaar "image/png" envPartialQr =
      fallbackTier "01-02-1999" envPartialQr.nowDays
        { aadhaar_number := some "123456789012", dob := none, name := some "Jane Doe",
          is_18_or_older := false, valid := true, error := none } :=
  c1_amended_fallthrough_keeps_fields "image/png" envPartialQr (some "Q")
    { aadhaar_number := some "123456789012", dob := none, name := some "Jane Doe",
      is_18_or_older := false, valid := true, error := none }
    "01-02-1999" rfl (by decide) rfl

/-- Counterexample to C1 as stated: with an incomplete structured code
(valid id, no date) and recognized text containing only a date, the
returned record carries the id number and validity of the structured tier
together with the date of the text tier, and differs from what the text
tier alone would produce. -/
theorem c1_counterexample_tiers_merge :
    (verify_aadhaar "image/png" envPartialQr).valid = true ∧
    (verify_aadhaar "image/png" envPartialQr).aadhaar_number = some "XXXX XXXX 9012" ∧
    (verify_aadhaar "image/png" envPartialQr).dob = some "01-02-1999" ∧
    (fallbackTier "01-02-1999" envPartialQr.nowDays initAadhaarData).aadhaar_number = none ∧
    (fallbackTier "01-02-1999" envPartialQr.nowDays initAadhaarData).valid = false ∧
    verify_aadhaar "image/png" envPartialQr ≠
      fallbackTier "01-02-1999" envPartialQr.nowDays initAadhaarData := by
  decide

/-- C2 (code defect): on the exception path the record assembled so far is
returned without masking, so a structured code carrying a valid id,
followed by an OCR engine failure, leaks the unmasked twelve-digit id. -/
theorem c2_unmasked_id_on_exception_path :
    verify_aadhaar "image/png" envOcrThrows =
      { aadhaar_number := some "123456789012", dob := none, name := some "Jane Doe",
        is_18_or_older := false, valid := false, error := some "OCR engine failure" } ∧
    (verify_aadhaar "image/png" envOcrThrows).aadhaar_number ≠
      some (maskNumber "123456789012") := by
  decide

/-- Counterexample to C4 as stated: the kind `image/gif` is outside
{pdf, jpeg, png}, yet `verify_aadhaar` performs the full pipeline on it
and can return a successful record with no failure. -/
theorem c4_counterexample_gif_processed :
    (verify_aadhaar "image/gif" envFullQr).error = none ∧
    (verify_aadhaar "image/gif" envFullQr).valid = true ∧
    verify_aadhaar "image/gif" envFullQr =
      { aadhaar_number := some "XXXX XXXX 9012", dob := some "15-06-2000",
        name := some "Jane Doe", is_18_or_older := true, valid := true,
        error := none } := by
  decide

/-- C4 (amended): only kinds that are neither the document kind nor any
`image/`-prefixed kind are rejected; the unsupported-media failure is
raised before any scanning or recognition result is consulted and is
absorbed at the boundary into the returned record. -/
theorem c4_amended_unsupported_kind (ct : String) (env : Env)
    (h1 : ct ≠ "application/pdf") (h2 : pyStartsWith ct "image/" = false) :
    verify_aadhaar ct env =
      { initAadhaarData with error := some "Unsupported file type", valid := false } := by
  have hq : qrScanStage ct env = Except.error "Unsupported file type" := by
    unfold qrScanStage
    rw [if_neg h1]
    rw [if_neg (by simp [h2])]
  unfold verify_aadhaar
  simp only [hq]

/-- Witness for the amended C4 at a concrete unsupported kind; the result
is the same fixed record whatever the environment holds. -/
theorem c4_amended_unsupported_kind_witness :
    verify_aadhaar "text/plain" envFullQr =
      { initAadhaarData with error := some "Unsupported file type", valid := false } :=
  c4_amended_unsupported_kind "text/plain" envFullQr (by decide) (by decide)

/-- C3: a structured code yielding a truthy id that passes the
twelve-digit check, a date string parsing as DD-MM-YYYY and a non-empty
name short-circuits: `verify_aadhaar` returns right after masking, and the
result never depends on the text-recognition engine's output. -/
theorem c3_short_circuit (ct : String) (env : Env) (s n ds nm : String) (d : PDate)
    (hq : qrScanStage ct env = Except.ok (some s)) (hs : s ≠ "")
    (hp : env.decodeQr s =
      some { aadhaar_number := some n, dob := some ds, name := some nm })
    (hn0 : n ≠ "") (hn : isAadhaar12 n = true)
    (hds0 : ds ≠ "") (hd : strptimeDashDMY ds = some d)
    (hnm : nm ≠ "") :
    verify_aadhaar ct env =
      { aadhaar_number := some (maskNumber n), dob := some ds, name := some nm,
        is_18_or_older := isAdult env.nowDays (pdateDays d), valid := true,
        error := none } ∧
    ∀ t, verify_aadhaar ct { env with ocrText := t } = verify_aadhaar ct env := by
  have e1 : applyNumber (some n) initAadhaarData =
      { initAadhaarData with aadhaar_number := some n, valid := true } := by
    simp only [applyNumber]
    rw [if_pos ⟨hn0, hn⟩]
  have e2 : structuredFields { aadhaar_number := some n, dob := some ds, name := some nm }
      env.nowDays initAadhaarData =
      { aadhaar_number := some n, dob := some ds, name := some nm,
        is_18_or_older := isAdult env.nowDays (pdateDays d), valid := true,
        error := none } := by
    simp only [structuredFields, e1, applyDobWith]
    rw [if_pos hds0, hd]
    rfl
  have hsc : shortCircuitCheck
      { aadhaar_number := some n, dob := some ds, name := some nm,
        is_18_or_older := isAdult env.nowDays (pdateDays d), valid := true,
        error := none } = true := by
    simp [shortCircuitCheck, truthy, bne_iff_ne, hds0, hnm]
  have hss : structuredStage (some s) env =
      ({ aadhaar_number := some (maskNumber n), dob := some ds, name := some nm,
         is_18_or_older := isAdult env.nowDays (pdateDays d), valid := true,
         error := none }, true) := by
    simp only [structuredStage]
    rw [if_pos hs]
    simp only [hp, e2, hsc]
    simp [maskTop]
  have key : ∀ (envx : Env) (R : AadhaarData), qrScanStage ct envx = Except.ok (some s) →
      structuredStage (some s) envx = (R, true) → verify_aadhaar ct envx = R := by
    intro envx R h1 h2
    unfold verify_aadhaar
    simp only [h1, h2]
  refine ⟨key env _ hq hss, fun t => ?_⟩
  rw [key { env with ocrText := t } _ hq hss, key env _ hq hss]

/-- Witness for C3 at a concrete complete payload: the masked record comes
back, and replacing the OCR result by a failure changes nothing. -/
theorem c3_short_circuit_witness :
    verify_aadhaar "image/png" envFullQr =
      { aadhaar_number := some (maskNumber "123456789012"), dob := some "15-06-2000",
        name := some "Jane Doe",
        is_18_or_older := isAdult envFullQr.nowDays (pdateDays ⟨15, 6, 2000⟩),
        valid := true, error := none } ∧
    verify_aadhaar "image/png" { envFullQr with ocrText := Except.error "boom" } =
      verify_aadhaar "image/png" envFullQr :=
  ⟨(c3_short_circuit "image/png" envFullQr "Q" "123456789012" "15-06-2000" "Jane Doe"
      ⟨15, 6, 2000⟩ rfl (by decide) rfl (by decide) (by decide) (by decide) (by decide)
      (by decide)).1,
   (c3_short_circuit "image/png" envFullQr "Q" "123456789012" "15-06-2000" "Jane Doe"
      ⟨15, 6, 2000⟩ rfl (by decide) rfl (by decide) (by decide) (by decide) (by decide)
      (by decide)).2 (Except.error "boom")⟩

/-- With no mark-anchored match anywhere in the text, the name scan
coincides with the scan by the positional alternative alone. -/
theorem nameScan_eq_posOnly : ∀ (cs : List Char) (prev : Option Char),
    alt1Anywhere cs = false → nameScan prev cs = posOnlyScan prev cs := by
  intro cs
  induction cs with
  | nil => intro prev _; rfl
  | cons c rest ih =>
    intro prev hall
    simp only [alt1Anywhere] at hall
    rcases Bool.or_eq_false_iff.mp hall with ⟨h1, h2⟩
    cases hx : tryAlt1 (c :: rest) with
    | some g => rw [hx] at h1; simp at h1
    | none =>
      simp only [nameScan, posOnlyScan, hx]
      cases hy : tryAlt2 prev (c :: rest) with
      | some g => simp only [hy]
      | none =>
        simp only [hy]
        exact ih (some c) h2

/-- Counterexample to C5 as stated: the text holds a label-anchored match
("Jane Doe" on the line after the DOB marker), yet the extractor returns
the positional sequence "All India Zone" that starts earlier. -/
theorem c5_counterexample_positional_first :
    tryAlt1 ("All India Zone\nDOB 01-01-2000\nJane Doe".toList.drop 15) =
      some "Jane Doe".toList ∧
    searchName "All India Zone\nDOB 01-01-2000\nJane Doe".toList =
      some "All India Zone".toList ∧
    (fallbackTier "All India Zone\nDOB 01-01-2000\nJane Doe" 0 initAadhaarData).name =
      some "All India Zone" := by
  decide

/-- C5 (amended): the extractor returns the leftmost match, trying the
label-anchored alternative before the positional one only at each single
position; hence a positional match that starts earlier beats an anchored
match that starts later, and the positional fallback governs the whole
result only when no anchored match exists anywhere. -/
theorem c5_amended_leftmost_priority (prev : Option Char) (cs : List Char) :
    (∀ g, tryAlt1 cs = some g → nameScan prev cs = some g) ∧
    (∀ g, tryAlt1 cs = none → tryAlt2 prev cs = some g → nameScan prev cs = some g) ∧
    (alt1Anywhere cs = false → nameScan prev cs = posOnlyScan prev cs) := by
  refine ⟨?_, ?_, nameScan_eq_posOnly cs prev⟩
  · intro g h
    cases cs with
    | nil =>
      have hz : tryAlt1 [] = none := by decide
      rw [hz] at h
      exact absurd h (by simp)
    | cons c rest => simp only [nameScan, h]
  · intro g h1 h2
    cases cs with
    | nil =>
      have hz : tryAlt2 prev [] = none := by
        unfold tryAlt2
        split <;> rfl
      rw [hz] at h2
      exact absurd h2 (by simp)
    | cons c rest => simp only [nameScan, h1, h2]

/-- Witness for the amended C5: an anchored match at the scan position is
taken, and a marker-free text reduces to the positional scan. -/
theorem c5_amended_leftmost_priority_witness :
    nameScan none "DOB x\nJane Doe".toList = some "Jane Doe".toList ∧
    nameScan none "ab cd 12".toList = posOnlyScan none "ab cd 12".toList :=
  ⟨(c5_amended_leftmost_priority none _).1 _ (by decide),
   (c5_amended_leftmost_priority none _).2.2 (by decide)⟩

/-- A truthy date string whose parse fails resets both date fields. -/
theorem applyDobWith_some_none (parse : String → Option PDate) (now : Int)
    (s : String) (a : AadhaarData) (h0 : s ≠ "") (hp : parse s = none) :
    (applyDobWith parse now (some s) a).dob = none ∧
    (applyDobWith parse now (some s) a).is_18_or_older = false := by
  simp only [applyDobWith]
  rw [if_pos h0, hp]
  exact ⟨rfl, rfl⟩

/-- A truthy date string whose parse succeeds stores the raw string and
the age flag. -/
theorem applyDobWith_some_some (parse : String → Option PDate) (now : Int)
    (s : String) (a : AadhaarData) (d : PDate) (h0 : s ≠ "") (hp : parse s = some d) :
    (applyDobWith parse now (some s) a).dob = some s ∧
    (applyDobWith parse now (some s) a).is_18_or_older = isAdult now (pdateDays d) := by
  simp only [applyDobWith]
  rw [if_pos h0, hp]
  exact ⟨rfl, rfl⟩

/-- C7: in the text tier the parse attempt is selected by the separator
convention of the extracted date string, and a failed parse resets the
date and the age flag rather than retaining stale values. -/
theorem c7_dob_selected_format_and_reset (text : String) (now : Int) (a : AadhaarData)
    (ds : String)
    (h : (searchDob text.toList).map String.mk = some ds) (h0 : ds ≠ "") :
    (parseDobBySeparator ds = none →
      (fallbackTier text now a).dob = none ∧
      (fallbackTier text now a).is_18_or_older = false) ∧
    (∀ d, parseDobBySeparator ds = some d →
      (fallbackTier text now a).dob = some ds ∧
      (fallbackTier text now a).is_18_or_older = isAdult now (pdateDays d)) ∧
    (ds.toList.contains '/' = true → parseDobBySeparator ds = strptimeSlashDMY ds) ∧
    (ds.toList.contains '/' = false → ds.toList.contains '-' = true →
      (ds.toList.takeWhile fun c => c ≠ '-').length = 2 →
      parseDobBySeparator ds = strptimeDashDMY ds) ∧
    (ds.toList.contains '/' = false → ds.toList.contains '-' = true →
      (ds.toList.takeWhile fun c => c ≠ '-').length ≠ 2 →
      parseDobBySeparator ds = strptimeDashYMD ds) ∧
    (ds.toList.contains '/' = false → ds.toList.contains '-' = false →
      parseDobBySeparator ds = strptimeSpaceDMY ds) := by
  have hdob : (fallbackTier text now a).dob =
      (applyDobWith parseDobBySeparator now (some ds)
        (applyNumber ((searchAadhaar text.toList).map fun m =>
          String.mk (m.filter fun c => c ≠ ' ')) a)).dob := by
    simp only [fallbackTier]
    rw [applyMaskGuarded_dob, applyErrorFlag_dob, applyName_dob, h]
  have h18 : (fallbackTier text now a).is_18_or_older =
      (applyDobWith parseDobBySeparator now (some ds)
        (applyNumber ((searchAadhaar text.toList).map fun m =>
          String.mk (m.filter fun c => c ≠ ' ')) a)).is_18_or_older := by
    simp only [fallbackTier]
    rw [applyMaskGuarded_is18, applyErrorFlag_is18, applyName_is18, h]
  refine ⟨?_, ?_, ?_, ?_, ?_, ?_⟩
  · intro hpn
    exact ⟨by rw [hdob]; exact (applyDobWith_some_none _ _ _ _ h0 hpn).1,
           by rw [h18]; exact (applyDobWith_some_none _ _ _ _ h0 hpn).2⟩
  · intro d hpd
    exact ⟨by rw [hdob]; exact (applyDobWith_some_some _ _ _ _ _ h0 hpd).1,
           by rw [h18]; exact (applyDobWith_some_some _ _ _ _ _ h0 hpd).2⟩
  · intro hc
    simp only [parseDobBySeparator]
    rw [if_pos hc]
  · intro hc1 hc2 hlen
    simp only [parseDobBySeparator]
    rw [if_neg (show ¬(ds.toList.contains '/' = true) by
          intro hx; rw [hc1] at hx; exact absurd hx (by decide)),
      if_pos hc2, if_pos hlen]
  · intro hc1 hc2 hlen
    simp only [parseDobBySeparator]
    rw [if_neg (show ¬(ds.toList.contains '/' = true) by
          intro hx; rw [hc1] at hx; exact absurd hx (by decide)),
      if_pos hc2, if_neg hlen]
  · intro hc1 hc2
    simp only [parseDobBySeparator]
    rw [if_neg (show ¬(ds.toList.contains '/' = true) by
          intro hx; rw [hc1] at hx; exact absurd hx (by decide)),
      if_neg (show ¬(ds.toList.contains '-' = true) by
          intro hx; rw [hc2] at hx; exact absurd hx (by decide))]

/-- Witness for C7 at a slash-separated date in the recognized text. -/
theorem c7_dob_selected_format_and_reset_witness :
    (fallbackTier "01/02/1999" 0 initAadhaarData).dob = some "01/02/1999" ∧
    (fallbackTier "01/02/1999" 0 initAadhaarData).is_18_or_older =
      isAdult 0 (pdateDays ⟨1, 2, 1999⟩) ∧
    parseDobBySeparator "01/02/1999" = strptimeSlashDMY "01/02/1999" :=
  ⟨((c7_dob_selected_format_and_reset "01/02/1999" 0 initAadhaarData "01/02/1999"
      (by decide) (by decide)).2.1 ⟨1, 2, 1999⟩ (by decide)).1,
   ((c7_dob_selected_format_and_reset "01/02/1999" 0 initAadhaarData "01/02/1999"
      (by decide) (by decide)).2.1 ⟨1, 2, 1999⟩ (by decide)).2,
   (c7_dob_selected_format_and_reset "01/02/1999" 0 initAadhaarData "01/02/1999"
      (by decide) (by decide)).2.2.1 (by decide)⟩

/-- C8: the age is the whole-day difference floor-divided by 365, the
flag holds exactly when that quotient reaches 18, and the 18x365-day
boundary behaves as documented. -/
theorem c8_age_floor_division (now : Int) (d : PDate) :
    (isAdult now (pdateDays d) = true ↔ 18 ≤ Int.fdiv (now - pdateDays d) 365) ∧
    (now - pdateDays d = 18 * 365 → isAdult now (pdateDays d) = true) ∧
    (now - pdateDays d = 18 * 365 - 1 → isAdult now (pdateDays d) = false) := by
  refine ⟨?_, ?_, ?_⟩
  · simp [isAdult, ageYears]
  · intro h
    unfold isAdult ageYears
    rw [h]
    decide
  · intro h
    unfold isAdult ageYears
    rw [h]
    decide

/-- Witness for C8 at the boundary: exactly 18x365 days of age is adult,
one day less is not. -/
theorem c8_age_floor_division_witness :
    isAdult (pdateDays ⟨1, 1, 2000⟩ + 18 * 365) (pdateDays ⟨1, 1, 2000⟩) = true ∧
    isAdult (pdateDays ⟨1, 1, 2000⟩ + (18 * 365 - 1)) (pdateDays ⟨1, 1, 2000⟩) = false :=
  ⟨(c8_age_floor_division _ ⟨1, 1, 2000⟩).2.1 (by omega),
   (c8_age_floor_division _ ⟨1, 1, 2000⟩).2.2 (by omega)⟩

end Aadhaar
